import Mathlib

/-
Verification development for the `rook` terminal application launcher.

The repository contains two generations of the search-provider subsystem:
`src/modules/...` (returning plain booleans) and `src/search_modules/...`
(returning `Result<bool>`).  Both are embedded here, faithfully to each file.

External crates are not repository code and are treated as oracles:
  * `nucleo`'s `fuzzy_match` / `substring_match` appear as function parameters;
  * the `shunting` arithmetic parser/evaluator appears as a function parameter
    of type `String → ArithOutcome`;
  * Rust's `str::parse::<f64>()` check appears as a `String → Bool` parameter.
Concrete instances used in witnesses model the real crates' behaviour on the
concrete inputs involved (e.g. `"40+2"` evaluates to `"42"`).

Rust string primitives are modelled over the character list of the string:
`to_lowercase` (ASCII case folding, which covers every input appearing here),
`trim`, `split_whitespace`, `replace(pat, "")` for one-character patterns,
`contains` (substring test) and byte length `len()`.
-/

namespace Rook

/-- Model of Rust `str::to_lowercase` (ASCII range). -/
def lowercase (s : String) : String :=
  String.mk (s.data.map Char.toLower)

/-- Model of Rust `str::trim`: strip leading and trailing whitespace. -/
def trimStr (s : String) : String :=
  String.mk (((s.data.dropWhile Char.isWhitespace).reverse.dropWhile Char.isWhitespace).reverse)

def wordsAux : List Char → List Char → List (List Char)
  | [], acc => if acc = [] then [] else [acc.reverse]
  | c :: cs, acc =>
      if c.isWhitespace then
        if acc = [] then wordsAux cs [] else acc.reverse :: wordsAux cs []
      else
        wordsAux cs (c :: acc)

/-- Model of Rust `str::split_whitespace`: maximal non-whitespace runs. -/
def split_whitespace (s : String) : List String :=
  (wordsAux s.data []).map String.mk

/-- Model of Rust `str::replace(c, "")` for a one-character pattern. -/
def removeChar (c : Char) (s : String) : String :=
  String.mk (s.data.filter (fun a => a ≠ c))

def leadsWith : List Char → List Char → Bool
  | [], _ => true
  | _ :: _, [] => false
  | a :: as, b :: bs => a = b && leadsWith as bs

def containsSubAux (ndl : List Char) : List Char → Bool
  | [] => leadsWith ndl []
  | c :: cs => leadsWith ndl (c :: cs) || containsSubAux ndl cs

/-- Model of Rust `str::contains(&str)`: substring test. -/
def containsSubstring (hay ndl : String) : Bool :=
  containsSubAux ndl.data hay.data

/-- Model of Rust `str::len()`: UTF-8 byte length. -/
def utf8Len (s : String) : Nat :=
  s.data.foldl (fun n c => n + c.utf8Size) 0

/-- Model of Rust `s.contains(['+', '-', '*', '/'])`. -/
def containsArithOp (s : String) : Bool :=
  s.data.any (fun c => c = '+' || c = '-' || c = '*' || c = '/')

/-
`src/modules/applications/desktop.rs`: the `Application` record produced by
`parse_desktop_file` (the `PathBuf` of the desktop file is kept as a string).
-/

structure Application where
  name : String
  application_name : Option String
  exec : String
  icon : Option String
  comment : Option String
  categories : List String
  terminal : Bool
  mime_types : List String
  desktop_file_path : Option String
deriving Repr, DecidableEq

/-- Shorthand constructor fixing the fields irrelevant to ranking. -/
def mkApp (name exec : String) (terminal : Bool) : Application :=
  ⟨name, none, exec, none, none, [], terminal, [], none⟩

def defaultApp : Application := mkApp "" "" false

/--
`resolve_same_score` from `src/modules/applications/desktop.rs` lines 189-214
(identical in `src/search_modules/applications/desktop.rs` and
`src/matcher.rs`): positive when `app_1` wins, negative when `app_2` wins.
-/
def resolve_same_score (app_1 app_2 : Application) (query : String) : Int :=
  let app_1_name := lowercase app_1.name
  let app_2_name := lowercase app_2.name
  let split_1 := split_whitespace app_1_name
  let split_2 := split_whitespace app_2_name
  let query_lower := lowercase query
  let app_1_exact := split_1.any (fun s => s = query_lower)
  let app_2_exact := split_2.any (fun s => s = query_lower)
  if app_1_exact && !app_2_exact then 1
  else if app_2_exact && !app_1_exact then -1
  else
    if utf8Len app_1_name < utf8Len app_2_name then 1
    else if utf8Len app_2_name < utf8Len app_1_name then -1
    else 0

/-- Exact whitespace-delimited token match used inside `resolve_same_score`. -/
def hasExactToken (app : Application) (query : String) : Bool :=
  (split_whitespace (lowercase app.name)).any (fun s => s = lowercase query)

/-
The `HashMap<u16, Vec<usize>>` of score buckets is modelled as an association
list; Rust's `HashMap` has no specified iteration order, so the relative order
of equal final scores in the flattened output is unspecified in the source and
model-specific here.
-/

def alistFind (m : List (Nat × List Nat)) (k : Nat) : Option (List Nat) :=
  match m with
  | [] => none
  | (k', v) :: rest => if k' = k then some v else alistFind rest k

def alistSet (m : List (Nat × List Nat)) (k : Nat) (v : List Nat) : List (Nat × List Nat) :=
  match m with
  | [] => [(k, v)]
  | (k', v') :: rest => if k' = k then (k, v) :: rest else (k', v') :: alistSet rest k v

/-- Model of `results.entry(k).or_default().push(i)`. -/
def alistPush (m : List (Nat × List Nat)) (k : Nat) (i : Nat) : List (Nat × List Nat) :=
  alistSet m k ((alistFind m k).getD [] ++ [i])

/--
Scan of one score bucket (`for &existing_index in bucket.iter()`): returns the
first existing member that beats the current app (the loop breaks there), and
whether some member scanned before that point lost to the current app.
-/
def scanBucket (apps : List Application) (app : Application) (query : String) :
    List Nat → Bool → Option Nat × Bool
  | [], cbe => (none, cbe)
  | j :: rest, cbe =>
      let res := resolve_same_score (apps.getD j defaultApp) app query
      if res > 0 then (some j, cbe)
      else if res < 0 then scanBucket apps app query rest true
      else scanBucket apps app query rest cbe

/-- Promotion to `score + 1` on a `u16` score (wrap-around at 2^16). -/
def promote (score : Nat) : Nat := (score + 1) % 65536

/-- One iteration of the loop body of `sort_applications` for `(index, app)`. -/
def sortStep (apps : List Application) (query : String)
    (fuzzy_match : String → String → Option Nat)
    (results : List (Nat × List Nat)) (index : Nat) (app : Application) :
    List (Nat × List Nat) :=
  match fuzzy_match (lowercase app.name) query with
  | none => results
  | some score =>
    match alistFind results score with
    | none => alistSet results score [index]
    | some bucket =>
      let (existing_beats_current, current_beats_existing) :=
        scanBucket apps app query bucket false
      if current_beats_existing then
        alistPush results (promote score) index
      else
        match existing_beats_current with
        | some best_existing =>
            let results := alistSet results score (bucket.filter (fun i => i ≠ best_existing))
            let results := alistPush results (promote score) best_existing
            alistPush results score index
        | none =>
            alistPush results score index

def sortLoop (apps : List Application) (query : String)
    (fuzzy_match : String → String → Option Nat) :
    List (Nat × Application) → List (Nat × List Nat) → List (Nat × List Nat)
  | [], results => results
  | (index, app) :: rest, results =>
      sortLoop apps query fuzzy_match rest
        (sortStep apps query fuzzy_match results index app)

/--
Stable descending insertion on `(score, index)` pairs.  Rust's
`sort_by(|a, b| b.0.cmp(&a.0))` is a stable descending sort by score; any
stable sort by the same key computes the same list, so this ordered insert
models it exactly (modulo the hash-map flatten order noted above).
-/
def insertDesc (x : Nat × Nat) : List (Nat × Nat) → List (Nat × Nat)
  | [] => [x]
  | y :: ys => if y.1 > x.1 then y :: insertDesc x ys else x :: y :: ys

def sortDesc : List (Nat × Nat) → List (Nat × Nat)
  | [] => []
  | x :: xs => insertDesc x (sortDesc xs)

/--
`sort_applications` from `src/modules/applications/desktop.rs` lines 216-301,
with `nucleo`'s `matcher.fuzzy_match` abstracted as the `fuzzy_match`
parameter (applied, as in the source, to the lower-cased name and the raw
query).  Output pairs are `(score, index)`.
-/
def sort_applications (apps : List Application) (query : String)
    (fuzzy_match : String → String → Option Nat) : List (Nat × Nat) :=
  let results := sortLoop apps query fuzzy_match apps.enum []
  let output := results.foldl (fun acc p => acc ++ p.2.map (fun idx => (p.1, idx))) []
  sortDesc output

/-- `ScoredResult` from `src/search_modules/mod.rs`. -/
structure ScoredResult where
  index : Nat
  score : Nat
deriving Repr, DecidableEq

/--
`sort_applications` from `src/search_modules/applications/desktop.rs` lines
149-234: the same algorithm, returning `ScoredResult` records instead of
pairs.
-/
def sort_applications_scored (apps : List Application) (query : String)
    (fuzzy_match : String → String → Option Nat) : List ScoredResult :=
  (sort_applications apps query fuzzy_match).map (fun p => ⟨p.2, p.1⟩)

/-
Outcome of `ShuntingParser::parse_str` followed by `MathContext::eval`
(external `shunting` crate, abstracted): parse failure, evaluation failure,
or a value rendered with `to_string()`.
-/

inductive ArithOutcome where
  | parseError
  | evalError
  | value (v : String)
deriving Repr, DecidableEq

namespace SearchModulesMaths

/-- `Equation` from `src/search_modules/maths/maths_module.rs`. -/
structure Equation where
  expression : String
  result : String
deriving Repr, DecidableEq

/-- `MathsData` (the `VecDeque` front is the list head). -/
structure MathsData where
  equations : List Equation
deriving Repr, DecidableEq

/--
Loop of `MathsModule::test_for_duplicate` (lines 55-74): walks the whole
history; an exact expression match or a positive `substring_match` (the
`nucleo` matcher abstracted as `substr`, with `unwrap_or_default` giving 0)
reports a duplicate at that position.
-/
def test_for_duplicate_loop (substr : String → String → Nat) (expression : String) :
    List Equation → Nat → Bool × Nat
  | [], _ => (false, 0)
  | compare_equation :: rest, i =>
      if expression = compare_equation.expression then (true, i)
      else if substr expression compare_equation.expression > 0 then (true, i)
      else test_for_duplicate_loop substr expression rest (i + 1)

/-- `MathsModule::test_for_duplicate` (lines 45-77). -/
def test_for_duplicate (substr : String → String → Nat) (data : MathsData)
    (equation : Equation) : Bool × Nat :=
  if data.equations = [] then (false, 0)
  else test_for_duplicate_loop substr equation.expression data.equations 0

/--
`MathsModule::search` from `src/search_modules/maths/maths_module.rs` lines
85-142.  `arith` abstracts parse+eval of the `shunting` crate; `is_num`
abstracts `query.parse::<f64>().is_ok()` (applied to the raw query);
`substr` abstracts `nucleo`'s `substring_match`.  An `Err` return leaves the
module state untouched, so errors carry no state.
-/
def search (arith : String → ArithOutcome) (is_num : String → Bool)
    (substr : String → String → Nat) (data : MathsData) (query : String) :
    Except String (Bool × MathsData) :=
  if query = "" then .error "Empty query"
  else
    let formatted_query := removeChar ' ' (trimStr query)
    match arith formatted_query with
    | .parseError => .error "Expression cannot be just a number"
    | .evalError => .error "Expression cannot be just a number"
    | .value v =>
        if is_num query then .error "Expression is just a number"
        else
          let result : Equation := ⟨formatted_query, v⟩
          let is_duplicate := test_for_duplicate substr data result
          if is_duplicate.1 then .ok (false, data)
          else
            let data := MathsData.mk (result :: data.equations)
            let data :=
              if data.equations.length > 100 then MathsData.mk (data.equations.take 99)
              else data
            .ok (true, data)

/--
`MathsModule::get_ui_results` (lines 144-158): each history entry becomes a
`ListResult` with label `"expression = result"` and score equal to its
position (the launch closure, constantly `false`, is omitted).
-/
def get_ui_results (data : MathsData) : List (String × Nat) :=
  data.equations.enum.map (fun p => (p.2.expression ++ " = " ++ p.2.result, p.1))

end SearchModulesMaths

namespace ModulesMaths

/-- `Equation` from `src/modules/maths/maths_module.rs` (with `valid`). -/
structure Equation where
  expression : String
  result : String
  valid : Bool
deriving Repr, DecidableEq

/-- Provider state: the equation history plus `state.results`. -/
structure State where
  equations : List Equation
  results : List ScoredResult
deriving Repr, DecidableEq

/--
`MathsModule::on_search` from `src/modules/maths/maths_module.rs` lines
103-185.  The call to `test_duplicates` at line 156 is commented out in the
source, so no duplicate check happens.  `arith` and `is_num` are the same
oracles as in the `search_modules` variant.
-/
def on_search (arith : String → ArithOutcome) (is_num : String → Bool)
    (state : State) (query : String) : Bool × State :=
  if query = "" then (false, state)
  else
    let formatted_query := removeChar ' ' (trimStr query)
    let equation : Equation := ⟨formatted_query, "âœ•", false⟩
    let (candidacy, result) :=
      match arith formatted_query with
      | .value v =>
          if is_num query then (false, (⟨formatted_query, v, false⟩ : Equation))
          else (true, (⟨formatted_query, v, true⟩ : Equation))
      | .evalError =>
          (containsArithOp formatted_query, equation)
      | .parseError => (false, equation)
    let (candidacy, equations) :=
      if result.valid then (true, result :: state.equations)
      else (candidacy, state.equations)
    let equations :=
      if equations.length > 100 then equations.dropLast else equations
    let results_pointers :=
      (List.range equations.length).map (fun idx => ScoredResult.mk idx idx)
    (candidacy, ⟨equations, results_pointers⟩)

end ModulesMaths

namespace SearchModulesDesktop

/-- Provider state of `DesktopFilesModule` in `src/search_modules/applications/desktop_files_module.rs`. -/
structure State where
  applications : List Application
  results : List ScoredResult
deriving Repr, DecidableEq

/--
`DesktopFilesModule::search` (lines 115-140): empty query returns `Ok(false)`
untouched; an empty ranking returns `Ok(false)` leaving `self.results` as it
was; otherwise the ranking is stored and `Ok(true)` returned.
-/
def search (fuzzy_match : String → String → Option Nat) (st : State)
    (query : String) : Except String (Bool × State) :=
  if query = "" then .ok (false, st)
  else
    let result := sort_applications_scored st.applications query fuzzy_match
    if result = [] then .ok (false, st)
    else .ok (true, ⟨st.applications, result⟩)

/--
`DesktopFilesModule::get_ui_results` (lines 141-159): projects the stored
`ScoredResult`s through the application list (name and score; the launch
closure is omitted).
-/
def get_ui_results (st : State) : List (String × Nat) :=
  st.results.map (fun score => ((st.applications.getD score.index defaultApp).name, score.score))

end SearchModulesDesktop

namespace ModulesDesktop

/-- Search-related state of `ModuleState` used by `src/modules/applications/desktop_files_module.rs`. -/
structure State where
  results : List (Nat × Nat)
  previous_query : String
  previous_results : List (Nat × Nat)
  selected_index : Nat
deriving Repr, DecidableEq

/--
`DesktopFilesModule::on_search` (lines 40-70): an empty query CLEARS
`state.search.results` and returns `false`; an empty ranking returns `false`
leaving the state as it was; otherwise the state is updated.
-/
def on_search (fuzzy_match : String → String → Option Nat)
    (applications : List Application) (st : State) (query : String) :
    Bool × State :=
  if query = "" then (false, ⟨[], st.previous_query, st.previous_results, st.selected_index⟩)
  else
    let result := sort_applications applications query fuzzy_match
    if result = [] then (false, st)
    else (true, ⟨result, query, st.results, 0⟩)

end ModulesDesktop

namespace Programs

/--
Duplicate test of `find_programs` in `src/modules/programs/programs.rs` lines
44-59: one pass of the inner loop body, true when `found` is set.  Note the
asymmetry: the desktop entry's name is lower-cased and stripped of spaces
only, while the candidate binary's name is lower-cased and stripped of
spaces, hyphens and underscores.
-/
def program_duplicate (desktop_app app : Application) : Bool :=
  containsSubstring desktop_app.exec app.exec ||
    (removeChar ' ' (lowercase desktop_app.name) =
      removeChar '_' (removeChar '-' (removeChar ' ' (lowercase app.name))))

/--
Filtering step of `find_programs` (lines 43-62): a candidate binary is pushed
onto the output only when no desktop entry sets `found`.  The filesystem scan
of `/usr/bin` that produces `candidates` (name = file stem, exec = full path,
terminal = true) is I/O and is abstracted as the input list.
-/
def find_programs (desktop_files : List Application)
    (candidates : List Application) : List Application :=
  candidates.filter (fun app => !(desktop_files.any (fun d => program_duplicate d app)))

end Programs

namespace CommonApplication

/-- `EXEC_CODES` from `src/common/application.rs`. -/
def EXEC_CODES : List String :=
  ["%f", "%F", "%u", "%U", "%i", "%c", "%k", "%d", "%D", "%n", "%N", "%v", "%m"]

/-- `TerminalCommand` from `src/common/application.rs`. -/
structure TerminalCommand where
  exec : Option String
  name : Option String
deriving Repr, DecidableEq

/--
`Application` from `src/common/application.rs`: the fields of the external
`xdgkit::DesktopEntry` that `launch`/`name`/`is_terminal`/`exec_string` read
(name, exec, terminal) are inlined.
-/
inductive App where
  | DesktopFile (name : Option String) (exec : Option String)
      (terminal : Option Bool) (path : String)
  | TerminalCommand (cmd : TerminalCommand) (path : String)
deriving Repr, DecidableEq

def App.name : App → String
  | .DesktopFile n _ _ _ => n.getD "UNKNOWN APPLICATION"
  | .TerminalCommand cmd _ => cmd.name.getD "UNKNOWN COMMAND"

def App.is_terminal : App → Bool
  | .DesktopFile _ _ t _ => t.getD false
  | .TerminalCommand _ _ => true

def App.exec_string : App → Option String
  | .DesktopFile _ e _ _ => e
  | .TerminalCommand cmd _ => cmd.exec

/--
`Application::launch` from `src/common/application.rs` lines 50-103, with the
OS spawn outcome abstracted as `spawn_ok`.  The source ends with
`exec_command.spawn().is_err().then(|| { return false; });` — the `return
false` returns from the closure, producing an `Option<bool>` that the
trailing `;` discards — so control always reaches the final `true` once the
exec parts are non-empty, whatever the spawn outcome.
-/
def launch (app : App) (spawn_ok : Bool) : Bool :=
  match app.exec_string with
  | none => false
  | some exec_string =>
      let exec_parts := (split_whitespace exec_string).filter
        (fun e => !(EXEC_CODES.contains e))
      if exec_parts = [] then false
      else
        let cmd := (if app.is_terminal then ["kitty", "-e"] else []) ++ exec_parts
        let _ := cmd
        let _ := spawn_ok
        true

end CommonApplication

namespace Applications

/--
`Application::launch` from `src/applications.rs` lines 19-67: spawn outcomes
abstracted as `spawn_err` (`none` = the spawn succeeded, `some e` = the OS
error text).  The terminal branch consults `$TERMINAL`, abstracted as
`env_terminal`; note that neither error message mentions the application's
name.
-/
def launch (app : Application) (env_terminal : Option String)
    (spawn_err : Option String) : Except String Unit :=
  let exec_parts := split_whitespace app.exec
  if exec_parts = [] then .error "Invalid exec command"
  else
    let _ := env_terminal.getD "x-terminal-emulator"
    if app.terminal then
      match spawn_err with
      | none => .ok ()
      | some e => .error ("Failed to launch terminal: " ++ e)
    else
      match spawn_err with
      | none => .ok ()
      | some e =>
          .error ("Failed to launch application: " ++ e ++ " \nExecutable Path: " ++ app.exec)

end Applications

/-
Concrete oracle instances used in witnesses and counterexamples.
-/

/--
Modelled behaviour of the external `shunting` crate (parse + eval) on the
concrete expressions exercised here: `"42"` parses and evaluates to `42`,
`"40+2"` to `42`, `"1+1"` to `2` (rendered via `f64::to_string`); other
strings are treated as parse failures.
-/
def shuntingModel : String → ArithOutcome
  | "42" => .value "42"
  | "40+2" => .value "42"
  | "1+1" => .value "2"
  | _ => .parseError

/-- Modelled `str::parse::<f64>().is_ok()` on the queries exercised here:
only `"42"` is a pure numeric literal. -/
def parseF64Model (q : String) : Bool := q = "42"

/-- Substring-match oracle that never fires. -/
def substrZero : String → String → Nat := fun _ _ => 0

/-- Arithmetic oracle under which every expression evaluates to `1`. -/
def arithValue1 : String → ArithOutcome := fun _ => .value "1"

/-- Numeric-literal oracle that never fires. -/
def isNumFalse : String → Bool := fun _ => false

/-- Fuzzy-match oracle under which nothing matches. -/
def fuzzyNone : String → String → Option Nat := fun _ _ => none

/-- Driver: a sequence of `search` calls on the `search_modules` maths
provider, threading the state (an `Err` leaves the state untouched). -/
def searchFold (arith : String → ArithOutcome) (is_num : String → Bool)
    (substr : String → String → Nat) (data : SearchModulesMaths.MathsData)
    (queries : List String) : SearchModulesMaths.MathsData :=
  queries.foldl
    (fun d q =>
      match SearchModulesMaths.search arith is_num substr d q with
      | .ok p => p.2
      | .error _ => d)
    data

/-- Driver: a sequence of `on_search` calls on the `modules` maths provider. -/
def onSearchFold (arith : String → ArithOutcome) (is_num : String → Bool)
    (st : ModulesMaths.State) (queries : List String) : ModulesMaths.State :=
  queries.foldl (fun s q => (ModulesMaths.on_search arith is_num s q).2) st

/-- 101 pairwise-distinct queries, each evaluating successfully under
`arithValue1`. -/
def queries101 : List String := (List.range 101).map (fun n => "q" ++ Nat.repr n)

/--
Normalisation as worded by the spec for the program-dedup rule: lower-case
and strip spaces, hyphens and underscores — applied, per the spec, to BOTH
names ("under the same normalization").  To be compared with the asymmetric
normalisation the code in `find_programs` actually performs.
-/
def spec_normalize (s : String) : String :=
  removeChar '_' (removeChar '-' (removeChar ' ' (lowercase s)))

/-- Fuzzy-match oracle for the spec's own test scenario: both `"zen
browser"` and `"zenity"` (the lower-cased candidate names) tie at a base
score of 88 for any query. -/
def fuzzyZen : String → String → Option Nat := fun n _ =>
  if n = "zen browser" ∨ n = "zenity" then some 88 else none

/-- Equality on `Except` values is decidable when it is on both components
(used to evaluate provider results in witnesses and counterexamples). -/
instance {ε α : Type} [DecidableEq ε] [DecidableEq α] : DecidableEq (Except ε α) := fun a b =>
  match a, b with
  | .error x, .error y =>
      if h : x = y then isTrue (by rw [h]) else
        isFalse (fun hc => h (Except.error.inj hc))
  | .error _, .ok _ => isFalse (fun hc => Except.noConfusion hc)
  | .ok _, .error _ => isFalse (fun hc => Except.noConfusion hc)
  | .ok x, .ok y =>
      if h : x = y then isTrue (by rw [h]) else
        isFalse (fun hc => h (Except.ok.inj hc))

/-
Helper lemmas about the stable descending sort.
-/

theorem mem_insertDesc {x y : Nat × Nat} {l : List (Nat × Nat)} :
    y ∈ insertDesc x l ↔ y = x ∨ y ∈ l := by
  induction l with
  | nil => simp [insertDesc]
  | cons z zs ih =>
      by_cases h : z.1 > x.1
      · simp only [insertDesc, if_pos h, List.mem_cons, ih]
        tauto
      · simp only [insertDesc, if_neg h, List.mem_cons]

theorem pairwise_insertDesc {x : Nat × Nat} {l : List (Nat × Nat)}
    (h : l.Pairwise (fun a b => b.1 ≤ a.1)) :
    (insertDesc x l).Pairwise (fun a b => b.1 ≤ a.1) := by
  induction l with
  | nil => simp [insertDesc]
  | cons z zs ih =>
      rcases List.pairwise_cons.mp h with ⟨hz, hzs⟩
      by_cases hcmp : z.1 > x.1
      · simp only [insertDesc, if_pos hcmp]
        refine List.pairwise_cons.mpr ⟨?_, ih hzs⟩
        intro w hw
        rcases mem_insertDesc.mp hw with rfl | hwzs
        · omega
        · exact hz w hwzs
      · simp only [insertDesc, if_neg hcmp]
        refine List.pairwise_cons.mpr ⟨?_, h⟩
        intro w hw
        rcases List.mem_cons.mp hw with rfl | hwzs
        · omega
        · have := hz w hwzs
          omega

theorem pairwise_sortDesc (l : List (Nat × Nat)) :
    (sortDesc l).Pairwise (fun a b => b.1 ≤ a.1) := by
  induction l with
  | nil => simp [sortDesc]
  | cons x xs ih =>
      simp only [sortDesc]
      exact pairwise_insertDesc ih

/--
C2, counterexample: the claim requires every provider's UI-exposed result
list — including the maths provider's `get_ui_results` — to be sorted in
non-increasing score order.  With two equations in the history the maths
provider returns the scores `[0, 1]`, which is increasing, not
non-increasing.
-/
theorem C2_counterexample :
    (SearchModulesMaths.get_ui_results ⟨[⟨"1+1", "2"⟩, ⟨"2+2", "4"⟩]⟩).map Prod.snd = [0, 1] ∧
    ¬ List.Pairwise (fun a b => b ≤ a) [0, 1] := by
  constructor
  · decide
  · intro h
    have := (List.pairwise_cons.mp h).1 1 (by simp)
    omega

/--
C2, amended: `sort_applications` does return its `(score, index)` list in
non-increasing score order (the final descending sort guarantees it), but the
maths provider's `get_ui_results` assigns each entry its position as its
score, so its list is `[0, 1, 2, ...]` — non-decreasing, not non-increasing.
-/
theorem C2_descending_order :
    (∀ (apps : List Application) (query : String)
        (fuzzy : String → String → Option Nat),
        (sort_applications apps query fuzzy).Pairwise (fun a b => b.1 ≤ a.1)) ∧
    (∀ data : SearchModulesMaths.MathsData,
        (SearchModulesMaths.get_ui_results data).map Prod.snd =
          List.range data.equations.length) := by
  constructor
  · intro apps query fuzzy
    unfold sort_applications
    exact pairwise_sortDesc _
  · intro data
    unfold SearchModulesMaths.get_ui_results
    rw [List.map_map]
    exact List.enum_map_fst data.equations

/--
C3, counterexample: the claim requires every provider's `search("")` to
return `false` as a normal result, not an error; the `search_modules` maths
provider returns `Err("Empty query")` instead.
-/
theorem C3_counterexample :
    SearchModulesMaths.search shuntingModel parseF64Model substrZero ⟨[]⟩ "" =
      .error "Empty query" := by
  decide

/--
C3, amended: on the empty query, the `search_modules` desktop provider
returns `Ok(false)` leaving its state untouched, but the `search_modules`
maths provider returns `Err("Empty query")` (state untouched), and the
`modules` desktop provider returns `false` while CLEARING its stored result
list; the `modules` maths provider returns `false` with its state untouched.
-/
theorem C3_empty_query :
    (∀ (fuzzy : String → String → Option Nat) (st : SearchModulesDesktop.State),
        SearchModulesDesktop.search fuzzy st "" = .ok (false, st)) ∧
    (∀ (arith : String → ArithOutcome) (is_num : String → Bool)
        (substr : String → String → Nat) (data : SearchModulesMaths.MathsData),
        SearchModulesMaths.search arith is_num substr data "" = .error "Empty query") ∧
    (∀ (fuzzy : String → String → Option Nat) (apps : List Application)
        (st : ModulesDesktop.State),
        (ModulesDesktop.on_search fuzzy apps st "").1 = false ∧
        (ModulesDesktop.on_search fuzzy apps st "").2.results = []) ∧
    (∀ (arith : String → ArithOutcome) (is_num : String → Bool)
        (st : ModulesMaths.State),
        ModulesMaths.on_search arith is_num st "" = (false, st)) := by
  refine ⟨fun fuzzy st => rfl, fun arith is_num substr data => rfl,
    fun fuzzy apps st => ⟨rfl, rfl⟩, fun arith is_num st => rfl⟩

/--
C4, counterexample: the claim says `search("42")` returns false without
raising an error; the `search_modules` maths provider raises
`Err("Expression is just a number")` instead (its `Ok` is never reached).
-/
theorem C4_counterexample :
    (SearchModulesMaths.search shuntingModel parseF64Model substrZero ⟨[]⟩ "42").isOk = false := by
  decide

/--
C4, amended: the `modules` variant's `on_search` returns `false` for the pure
numeric literal `"42"` and `true` for `"40+2"`, recording
`Equation{expression: "40+2", result: "42", valid: true}`; the
`search_modules` variant returns `Ok(true)` for `"40+2"` recording
`Equation{expression: "40+2", result: "42"}`, but for `"42"` it returns
`Err("Expression is just a number")` rather than `Ok(false)`.
-/
theorem C4_numeric_guard :
    ModulesMaths.on_search shuntingModel parseF64Model ⟨[], []⟩ "42" = (false, ⟨[], []⟩) ∧
    ModulesMaths.on_search shuntingModel parseF64Model ⟨[], []⟩ "40+2" =
      (true, ⟨[⟨"40+2", "42", true⟩], [⟨0, 0⟩]⟩) ∧
    SearchModulesMaths.search shuntingModel parseF64Model substrZero ⟨[]⟩ "40+2" =
      .ok (true, ⟨[⟨"40+2", "42"⟩]⟩) ∧
    SearchModulesMaths.search shuntingModel parseF64Model substrZero ⟨[]⟩ "42" =
      .error "Expression is just a number" := by
  refine ⟨by decide, by decide, by decide, by decide⟩

set_option maxRecDepth 10000 in
/--
C5, counterexample: the claim says inserting 101 distinct valid equations
leaves exactly 100 entries; the `search_modules` maths provider trims with
`split_off(99)` once the history exceeds 100, so 101 successful insertions
leave 99 entries, not 100.
-/
theorem C5_counterexample :
    (searchFold arithValue1 isNumFalse substrZero ⟨[]⟩ queries101).equations.length = 99 := by
  decide

set_option maxRecDepth 10000 in
/--
C5, amended: after any search call the history holds at most 100 entries (for
the `search_modules` variant this bound is preserved by every call); in the
`modules` variant 101 distinct valid insertions leave exactly 100 entries
with the oldest (`"q0"`) evicted, while the `search_modules` variant trims to
99 entries instead of 100.
-/
theorem C5_history_bound :
    (∀ (arith : String → ArithOutcome) (is_num : String → Bool)
        (substr : String → String → Nat) (data : SearchModulesMaths.MathsData)
        (query : String) (b : Bool) (data2 : SearchModulesMaths.MathsData),
        SearchModulesMaths.search arith is_num substr data query = .ok (b, data2) →
        data.equations.length ≤ 100 → data2.equations.length ≤ 100) ∧
    (onSearchFold arithValue1 isNumFalse ⟨[], []⟩ queries101).equations.length = 100 ∧
    (onSearchFold arithValue1 isNumFalse ⟨[], []⟩ queries101).equations.any
      (fun e => e.expression = "q0") = false := by
  refine ⟨?_, by decide, by decide⟩
  intro arith is_num substr data query b data2 hok hlen
  by_cases hq : query = ""
  · simp only [SearchModulesMaths.search, if_pos hq] at hok
    exact absurd hok (by simp)
  · simp only [SearchModulesMaths.search, if_neg hq] at hok
    cases harith : arith (removeChar ' ' (trimStr query)) with
    | parseError => rw [harith] at hok; exact absurd hok (by simp)
    | evalError => rw [harith] at hok; exact absurd hok (by simp)
    | value v =>
        rw [harith] at hok
        by_cases hnum : is_num query
        · simp only [hnum, if_true] at hok
          exact absurd hok (by simp)
        · simp only [hnum, if_false, Bool.false_eq_true] at hok
          by_cases hdup :
              (SearchModulesMaths.test_for_duplicate substr data
                ⟨removeChar ' ' (trimStr query), v⟩).1
          · simp only [hdup, if_true] at hok
            rw [Except.ok.injEq, Prod.mk.injEq] at hok
            rw [← hok.2]
            exact hlen
          · simp only [hdup, if_false, Bool.false_eq_true] at hok
            by_cases hgt :
                100 < data.equations.length + 1
            · simp only [List.length_cons, hgt, if_true] at hok
              rw [Except.ok.injEq, Prod.mk.injEq] at hok
              rw [← hok.2]
              simp only [SearchModulesMaths.MathsData.mk.injEq] at *
              simp [List.length_take]
            · simp only [List.length_cons, hgt, if_false] at hok
              rw [Except.ok.injEq, Prod.mk.injEq] at hok
              rw [← hok.2]
              simp only [List.length_cons]
              omega

/--
C5, witness for the bound-preservation conjunct: one successful call from an
empty history leaves at most 100 entries.
-/
theorem C5_history_bound_witness :
    (searchFold arithValue1 isNumFalse substrZero ⟨[]⟩ ["1+1"]).equations.length ≤ 100 := by
  refine C5_history_bound.1 arithValue1 isNumFalse substrZero ⟨[]⟩ "1+1" true
    (searchFold arithValue1 isNumFalse substrZero ⟨[]⟩ ["1+1"]) (by decide) (by decide)

/--
C6, counterexample: in the `modules` maths provider the call to
`test_duplicates` is commented out, so submitting the same expression
(`"1+1"`) twice in a row creates two history entries, not one.
-/
theorem C6_counterexample :
    (onSearchFold shuntingModel parseF64Model ⟨[], []⟩ ["1+1", "1+1"]).equations =
      [⟨"1+1", "2", true⟩, ⟨"1+1", "2", true⟩] := by
  decide

/--
C6, amended: in the `search_modules` maths provider the new equation is
compared against EVERY history entry (exact expression equality first, then
substring-fuzzy), and a detected duplicate suppresses the insertion, so
searching the same successfully-evaluating expression twice creates a single
history entry; in the `modules` variant the duplicate test is never invoked
and the second call inserts a second entry.
-/
theorem C6_dedup (arith : String → ArithOutcome) (is_num : String → Bool)
    (substr : String → String → Nat) (q v : String)
    (hq : q ≠ "")
    (hv : arith (removeChar ' ' (trimStr q)) = .value v)
    (hn : is_num q = false) :
    SearchModulesMaths.search arith is_num substr ⟨[]⟩ q =
      .ok (true, ⟨[⟨removeChar ' ' (trimStr q), v⟩]⟩) ∧
    SearchModulesMaths.search arith is_num substr ⟨[⟨removeChar ' ' (trimStr q), v⟩]⟩ q =
      .ok (false, ⟨[⟨removeChar ' ' (trimStr q), v⟩]⟩) := by
  constructor
  · simp [SearchModulesMaths.search, SearchModulesMaths.test_for_duplicate,
      if_neg hq, hv, hn]
  · simp [SearchModulesMaths.search, SearchModulesMaths.test_for_duplicate,
      SearchModulesMaths.test_for_duplicate_loop, if_neg hq, hv, hn]

/--
C6, witness: the dedup behaviour at the concrete expression `"1+1"`.
-/
theorem C6_dedup_witness :
    SearchModulesMaths.search shuntingModel parseF64Model substrZero ⟨[]⟩ "1+1" =
      .ok (true, ⟨[⟨"1+1", "2"⟩]⟩) ∧
    SearchModulesMaths.search shuntingModel parseF64Model substrZero
        ⟨[⟨"1+1", "2"⟩]⟩ "1+1" =
      .ok (false, ⟨[⟨"1+1", "2"⟩]⟩) :=
  C6_dedup shuntingModel parseF64Model substrZero "1+1" "2" (by decide) (by decide)
    (by decide)

/--
C9: when the query parses and evaluates but the new equation is judged a
duplicate of the stored history, the `search_modules` maths provider returns
`Ok(false)` — declining candidacy — and the history is left unchanged.
-/
theorem C9_duplicate_declines (arith : String → ArithOutcome) (is_num : String → Bool)
    (substr : String → String → Nat) (data : SearchModulesMaths.MathsData)
    (q v : String)
    (hq : q ≠ "")
    (hv : arith (removeChar ' ' (trimStr q)) = .value v)
    (hn : is_num q = false)
    (hdup : (SearchModulesMaths.test_for_duplicate substr data
        ⟨removeChar ' ' (trimStr q), v⟩).1 = true) :
    SearchModulesMaths.search arith is_num substr data q = .ok (false, data) := by
  simp [SearchModulesMaths.search, if_neg hq, hv, hn, hdup]

/--
C9, witness: a duplicate of the single stored equation `"1+1" = "2"` declines
candidacy and leaves the history unchanged.
-/
theorem C9_duplicate_declines_witness :
    SearchModulesMaths.search shuntingModel parseF64Model substrZero
        ⟨[⟨"1+1", "2"⟩]⟩ "1+1" =
      .ok (false, ⟨[⟨"1+1", "2"⟩]⟩) :=
  C9_duplicate_declines shuntingModel parseF64Model substrZero ⟨[⟨"1+1", "2"⟩]⟩
    "1+1" "2" (by decide) (by decide) (by decide) (by decide)

/--
C10: a non-empty query with zero fuzzy matches makes the desktop-files
provider return `Ok(false)` with its stored results untouched, so a
subsequent `get_ui_results` still projects the result list of the last
successful query.
-/
theorem C10_stale_results (fuzzy : String → String → Option Nat)
    (st : SearchModulesDesktop.State) (q : String)
    (_hq : q ≠ "")
    (hempty : sort_applications_scored st.applications q fuzzy = []) :
    SearchModulesDesktop.search fuzzy st q = .ok (false, st) ∧
    ∀ (b : Bool) (st2 : SearchModulesDesktop.State),
      SearchModulesDesktop.search fuzzy st q = .ok (b, st2) →
      SearchModulesDesktop.get_ui_results st2 = SearchModulesDesktop.get_ui_results st := by
  have h1 : SearchModulesDesktop.search fuzzy st q = .ok (false, st) := by
    simp [SearchModulesDesktop.search, hempty]
  refine ⟨h1, ?_⟩
  intro b st2 heq
  rw [h1] at heq
  injection Except.ok.inj heq with hb hst
  rw [← hst]

/--
C10, witness: a stored result survives a non-matching query.
-/
theorem C10_stale_results_witness :
    SearchModulesDesktop.search fuzzyNone
        ⟨[mkApp "Firefox" "firefox %u" false], [⟨0, 55⟩]⟩ "xyz" =
      .ok (false, ⟨[mkApp "Firefox" "firefox %u" false], [⟨0, 55⟩]⟩) :=
  (C10_stale_results fuzzyNone ⟨[mkApp "Firefox" "firefox %u" false], [⟨0, 55⟩]⟩
    "xyz" (by decide) (by decide)).1

/--
C7, counterexample: the claim normalizes BOTH names by stripping spaces,
hyphens and underscores, under which "Foo_Bar" and "foobar" coincide, so the
binary should be excluded; `find_programs` strips only spaces from the
desktop entry's name, so the binary `foobar` stays in the candidate set.
-/
theorem C7_counterexample :
    spec_normalize (mkApp "Foo_Bar" "gtk foo" false).name =
      spec_normalize (mkApp "foobar" "/usr/bin/foobar" true).name ∧
    Programs.find_programs [mkApp "Foo_Bar" "gtk foo" false]
        [mkApp "foobar" "/usr/bin/foobar" true] =
      [mkApp "foobar" "/usr/bin/foobar" true] := by
  decide

/--
C7, amended: a PATH binary is excluded from the Programs Provider's candidate
set whenever some desktop entry's `Exec` contains the binary's path as a
substring, or the desktop entry's name lower-cased with spaces stripped
equals the binary's name lower-cased with spaces, hyphens AND underscores
stripped (the two names are NOT normalized the same way).
-/
theorem C7_program_dedup (desktop_files candidates : List Application)
    (d app : Application)
    (hd : d ∈ desktop_files)
    (hdup : Programs.program_duplicate d app = true) :
    app ∉ Programs.find_programs desktop_files candidates := by
  intro hmem
  unfold Programs.find_programs at hmem
  have h := (List.mem_filter.mp hmem).2
  have h2 : desktop_files.any (fun d2 => Programs.program_duplicate d2 app) = true :=
    List.any_eq_true.mpr ⟨d, hd, hdup⟩
  rw [h2] at h
  simp at h

/--
C7, witness: the binary `zen-browser` is excluded because its stripped name
matches the desktop entry "Zen Browser".
-/
theorem C7_program_dedup_witness :
    mkApp "zen-browser" "/usr/bin/zen-browser" true ∉
      Programs.find_programs [mkApp "Zen Browser" "zen %U" false]
        [mkApp "zen-browser" "/usr/bin/zen-browser" true] :=
  C7_program_dedup [mkApp "Zen Browser" "zen %U" false]
    [mkApp "zen-browser" "/usr/bin/zen-browser" true]
    (mkApp "Zen Browser" "zen %U" false)
    (mkApp "zen-browser" "/usr/bin/zen-browser" true)
    (by decide) (by decide)

/--
Unfolding of `resolve_same_score` in terms of the exact-token test and the
byte lengths of the lower-cased names.
-/
theorem resolve_same_score_spec (a b : Application) (q : String) :
    resolve_same_score a b q =
      if hasExactToken a q && !hasExactToken b q then 1
      else if hasExactToken b q && !hasExactToken a q then -1
      else if utf8Len (lowercase a.name) < utf8Len (lowercase b.name) then 1
      else if utf8Len (lowercase b.name) < utf8Len (lowercase a.name) then -1
      else 0 := rfl

/--
C1, counterexample: with three candidates tying at base score 50 for query
"zen" — index 0 `"zenmap"` (no exact token), index 1 `"zenefits!"`, index 2
`"zen mail"` (exact token) — `"zenmap"` is promoted to 51 by the
shorter-name rule when `"zenefits!"` arrives, and `"zen mail"` is promoted
to 51 by the exact-token rule.  The pair (`"zen mail"`, `"zenmap"`) has the
same base score and exactly one exact-token match, yet their final scores
are both 51: they do not differ by 1 and the token-matching candidate is not
strictly above the other.
-/
theorem C1_counterexample :
    hasExactToken (mkApp "zen mail" "" false) "zen" = true ∧
    hasExactToken (mkApp "zenmap" "" false) "zen" = false ∧
    sort_applications
      [mkApp "zenmap" "" false, mkApp "zenefits!" "" false, mkApp "zen mail" "" false]
      "zen" (fun _ _ => some 50) =
      [(51, 0), (51, 2), (50, 1)] := by
  decide

/--
C1, amended: when the candidate set is exactly the colliding pair — two
candidates assigned the same base fuzzy score, of which exactly one contains
a whitespace-delimited token equal to the lower-cased query —
`sort_applications` places the token-matching candidate strictly above the
other, at the colliding score plus one, while the other stays at the
colliding score (so their final scores differ by exactly 1).  With further
same-score candidates in the bucket this can fail (see the counterexample).
-/
theorem C1_pair_promotion (a b : Application) (q : String)
    (fuzzy : String → String → Option Nat) (s : Nat)
    (ha : fuzzy (lowercase a.name) q = some s)
    (hb : fuzzy (lowercase b.name) q = some s)
    (hs : s + 1 < 65536)
    (hx : hasExactToken a q ≠ hasExactToken b q) :
    sort_applications [a, b] q fuzzy =
      if hasExactToken a q then [(s + 1, 0), (s, 1)] else [(s + 1, 1), (s, 0)] := by
  have hprom : promote s = s + 1 := Nat.mod_eq_of_lt hs
  have hne : s ≠ s + 1 := by omega
  have hgt : s + 1 > s := by omega
  by_cases hA : hasExactToken a q
  · have hB : hasExactToken b q = false := by
      cases h : hasExactToken b q
      · rfl
      · rw [hA, h] at hx; exact absurd rfl hx
    have hres : resolve_same_score a b q = 1 := by
      simp [resolve_same_score_spec, hA, hB]
    rw [if_pos hA]
    have hscan : scanBucket [a, b] b q [0] false = (some 0, false) := by
      simp only [scanBucket, List.getD_cons_zero, hres]
      norm_num
    simp only [sort_applications, List.enum, List.enumFrom, sortLoop, sortStep,
      ha, hb, alistFind, alistSet, alistPush, hscan, List.getD_cons_zero,
      hprom, hne, List.foldl, List.map, List.filter]
    simp [hscan, sortDesc, insertDesc, hne, hgt, Ne.symm hne]
  · have hA' : hasExactToken a q = false := by
      cases h : hasExactToken a q
      · rfl
      · exact absurd h hA
    have hB : hasExactToken b q = true := by
      cases h : hasExactToken b q
      · rw [hA', h] at hx; exact absurd rfl hx
      · rfl
    have hres : resolve_same_score a b q = -1 := by
      simp [resolve_same_score_spec, hA', hB]
    rw [if_neg hA]
    have hscan : scanBucket [a, b] b q [0] false = (none, true) := by
      simp only [scanBucket, List.getD_cons_zero, hres]
      norm_num
    simp only [sort_applications, List.enum, List.enumFrom, sortLoop, sortStep,
      ha, hb, alistFind, alistSet, alistPush, hscan, List.getD_cons_zero,
      hprom, hne, List.foldl, List.map, List.filter]
    simp [hscan, sortDesc, insertDesc, hne, hgt, Ne.symm hne]

/--
C1, witness: the spec's own scenario — candidates "Zen Browser" and "Zenity"
tying at base score 88 for query "zen" — ends with "Zen Browser" at 89 and
"Zenity" at 88.
-/
theorem C1_pair_promotion_witness :
    sort_applications [mkApp "Zen Browser" "" false, mkApp "Zenity" "" false]
      "zen" fuzzyZen = [(89, 0), (88, 1)] := by
  have h := C1_pair_promotion (mkApp "Zen Browser" "" false) (mkApp "Zenity" "" false)
    "zen" fuzzyZen 88 (by decide) (by decide) (by decide) (by decide)
  rw [h]
  decide

/--
C8: in `src/common/application.rs`, `Application::launch` evaluates
`exec_command.spawn().is_err().then(|| { return false; })` and discards the
resulting `Option<bool>`, so after a FAILED spawn (`spawn_ok = false`) it
still falls through and returns `true` — reporting success with no error
value carrying the command or the application name.
-/
theorem C8_launch_spawn_failure :
    CommonApplication.launch
      (CommonApplication.App.DesktopFile (some "Zen Browser") (some "zen %U")
        (some false) "/usr/share/applications/zen.desktop") false = true := by
  decide

end Rook
